import Mathlib

/-!
Verification of the EchoInfo Telegram bot (`src/bot.py`) against its
natural-language specification.  The Python source is shallowly embedded:
pure functions become Lean functions over explicit data, awaited network
calls become `Except ExcKind` fetch outcomes passed in as arguments, and
Python truthiness on optional values is modelled explicitly.
-/

namespace EchoBot

/-- Kinds of exceptions that can arise from the Telegram API and the runtime,
as distinguished by the `except` clauses in `bot.py`:
`TelegramForbiddenError`, `TelegramBadRequest`, any other `Exception`
subclass, and `KeyboardInterrupt` (which is not an `Exception` subclass). -/
inductive ExcKind
  | telegramForbidden
  | telegramBadRequest
  | otherException
  | keyboardInterrupt
deriving DecidableEq, Repr

/-- Whether the exception kind is a subclass of Python `Exception`,
i.e. is caught by a bare `except Exception` clause. -/
def ExcKind.isException : ExcKind → Bool
  | .keyboardInterrupt => false
  | _ => true

/-- Python truthiness of an optional string (`None` and `""` are falsy). -/
def truthyStr : Option String → Bool
  | some s => !s.isEmpty
  | none => false

/-- Python truthiness of an optional integer (`None` and `0` are falsy). -/
def truthyInt : Option Int → Bool
  | some n => decide (n ≠ 0)
  | none => false

/-- Python truthiness of an optional boolean (`None` and `False` are falsy). -/
def truthyBool : Option Bool → Bool
  | some b => b
  | none => false

/-- Embedding of Python `sep.join(parts)`. -/
def str_join (sep : String) : List String → String
  | [] => ""
  | [a] => a
  | a :: b :: rest => a ++ sep ++ str_join sep (b :: rest)

/-- Embedding of Python `s[:n]` on a string (slice by code points). -/
def str_take (s : String) (n : Nat) : String := String.mk (s.toList.take n)

/-- `yes_no` from `bot.py`: tri-state rendering of an optional boolean. -/
def yes_no : Option Bool → String
  | some true => "да"
  | some false => "нет"
  | none => "неизвестно"

/-- An aiogram `User` as consumed by `format_user`.  `id`, `is_bot` and
`full_name` are mandatory in the Bot API; the remaining attributes are
fetched with `getattr(_, _, None)` or are `Optional` fields, so they are
`Option`-valued (absence = unknown). -/
structure User where
  id : Int
  is_bot : Bool
  full_name : String
  username : Option String
  language_code : Option String
  is_premium : Option Bool
  is_scam : Option Bool
  is_fake : Option Bool
  is_support : Option Bool
  added_to_attachment_menu : Option Bool
  can_join_groups : Option Bool
  can_read_all_group_messages : Option Bool
  supports_inline_queries : Option Bool
  can_connect_to_business : Option Bool
  has_main_web_app : Option Bool
  emoji_status_custom_emoji_id : Option String
  personal_chat_id : Option Int
deriving Repr

/-- The list of display lines built by `format_user` in `bot.py`. -/
def format_user_lines (u : User) : List String :=
  [ "ID: " ++ toString u.id,
    "Bot: " ++ yes_no (some u.is_bot),
    "Имя: " ++ u.full_name,
    (if truthyStr u.username then "Username: @" ++ u.username.getD ""
     else "Username: нет"),
    "Язык: " ++ (if truthyStr u.language_code then u.language_code.getD ""
                 else "неизвестно"),
    "Premium: " ++ yes_no u.is_premium,
    "Scam: " ++ yes_no u.is_scam,
    "Fake: " ++ yes_no u.is_fake,
    "Support: " ++ yes_no u.is_support,
    "Добавлен в меню вложений: " ++ yes_no u.added_to_attachment_menu,
    "Может присоединяться к группам: " ++ yes_no u.can_join_groups,
    "Может читать все сообщения групп: " ++ yes_no u.can_read_all_group_messages,
    "Поддерживает inline: " ++ yes_no u.supports_inline_queries,
    "Can connect to business: " ++ yes_no u.can_connect_to_business,
    "Has main web app: " ++ yes_no u.has_main_web_app ]
  ++ (if truthyStr u.emoji_status_custom_emoji_id then
        ["Emoji статус: " ++ u.emoji_status_custom_emoji_id.getD ""] else [])
  ++ (if truthyInt u.personal_chat_id then
        ["Personal chat ID: " ++ toString (u.personal_chat_id.getD 0)] else [])

/-- `format_user` from `bot.py`: newline-joined user report. -/
def format_user (u : User) : String := str_join "\n" (format_user_lines u)

/-- A chat administrator entry as used by `format_admins`
(`m.user.full_name` and `m.user.id`). -/
structure ChatMember where
  full_name : String
  user_id : Int
deriving Repr, DecidableEq

/-- `format_admins` from `bot.py`. -/
def format_admins (admins : List ChatMember) (limit : Nat := 6) : String :=
  if admins.isEmpty then "Администраторы: недоступно"
  else
    let shown := admins.take limit
    let rendered := str_join ", "
      (shown.map (fun m => m.full_name ++ " (id " ++ toString m.user_id ++ ")"))
    let rendered := if admins.length > limit then
        rendered ++ ", и еще " ++ toString (admins.length - limit)
      else rendered
    "Администраторы (" ++ toString admins.length ++ "): " ++ rendered

/-- An aiogram `ChatPermissions` record: every attribute is `Optional[bool]`
and probed with `getattr(perms, attr, None)`. -/
structure ChatPermissions where
  can_send_messages : Option Bool
  can_send_audios : Option Bool
  can_send_documents : Option Bool
  can_send_photos : Option Bool
  can_send_videos : Option Bool
  can_send_video_notes : Option Bool
  can_send_voice_notes : Option Bool
  can_send_polls : Option Bool
  can_send_other_messages : Option Bool
  can_add_web_page_previews : Option Bool
  can_change_info : Option Bool
  can_invite_users : Option Bool
  can_pin_messages : Option Bool
  can_manage_topics : Option Bool
deriving Repr

/-- The `mapping` dict in `format_permissions`, paired with the permission
values of a given record, in the fixed enumeration order of `bot.py`. -/
def perm_mapping (p : ChatPermissions) : List (Option Bool × String) :=
  [ (p.can_send_messages, "сообщения"),
    (p.can_send_audios, "аудио"),
    (p.can_send_documents, "документы"),
    (p.can_send_photos, "фото"),
    (p.can_send_videos, "видео"),
    (p.can_send_video_notes, "видео-заметки"),
    (p.can_send_voice_notes, "голосовые"),
    (p.can_send_polls, "опросы"),
    (p.can_send_other_messages, "другое"),
    (p.can_add_web_page_previews, "превью ссылок"),
    (p.can_change_info, "изменять инфо"),
    (p.can_invite_users, "приглашать"),
    (p.can_pin_messages, "пинить"),
    (p.can_manage_topics, "управлять топиками") ]

/-- The `allowed` list accumulated by `format_permissions`: labels of the
permissions whose value is truthy (`getattr(perms, attr, None)` truthy
iff the value is present and `True`). -/
def granted_labels (p : ChatPermissions) : List String :=
  (perm_mapping p).filterMap (fun x => if truthyBool x.1 then some x.2 else none)

/-- `format_permissions` from `bot.py`; the argument is `chat.permissions`
(`None` when the record is unavailable, and `not perms` is then truthy). -/
def format_permissions (perms : Option ChatPermissions) : String :=
  match perms with
  | none => "Разрешения по умолчанию: недоступно"
  | some p =>
    let allowed := granted_labels p
    if allowed.isEmpty then "Разрешения по умолчанию: запрещено все"
    else "Разрешения по умолчанию: " ++ str_join ", " allowed

/-- A message entity as inspected by `extract_custom_emoji_ids`:
its `type` (already reduced to the enum's string value, as
`getattr(entity.type, "value", entity.type)` does) and its optional
`custom_emoji_id`. -/
structure MessageEntity where
  type : String
  custom_emoji_id : Option String
deriving Repr

/-- The message attributes read by `extract_custom_emoji_ids`:
`message.entities` and `message.caption_entities`, each `Optional[list]`. -/
structure MsgContent where
  entities : Option (List MessageEntity)
  caption_entities : Option (List MessageEntity)
deriving Repr

/-- `extract_custom_emoji_ids` from `bot.py`: concatenate the two entity
lists, keep the ids of entities whose type is `"custom_emoji"` and whose
id is truthy (present and non-empty). -/
def extract_custom_emoji_ids (m : MsgContent) : List String :=
  let entities := m.entities.getD [] ++ m.caption_entities.getD []
  entities.filterMap (fun e =>
    if e.type = "custom_emoji" then
      if truthyStr e.custom_emoji_id then e.custom_emoji_id else none
    else none)

/-- Embedding of Python `list(dict.fromkeys(ids))`: remove duplicates
keeping the first occurrence of each element, preserving first-seen order.
`seen` accumulates the keys inserted so far. -/
def dedup_go (seen : List String) : List String → List String
  | [] => []
  | a :: rest =>
    if a ∈ seen then dedup_go seen rest
    else a :: dedup_go (a :: seen) rest

/-- First-seen deduplication, i.e. `list(dict.fromkeys(ids))`. -/
def dedup_first_seen (l : List String) : List String := dedup_go [] l

/-- The `unique_ids` sequence reported by `custom_emoji_id_private`. -/
def reported_ids (m : MsgContent) : List String :=
  dedup_first_seen (extract_custom_emoji_ids m)

/-- `custom_emoji_id_private` from `bot.py`: `none` when no ids were
extracted (the handler returns without answering), otherwise the reply
text built from the deduplicated ids. -/
def custom_emoji_reply (m : MsgContent) : Option String :=
  let ids := extract_custom_emoji_ids m
  if ids.isEmpty then none
  else
    let unique_ids := dedup_first_seen ids
    if unique_ids.length = 1 then
      some ("ID кастомной emoji: " ++ unique_ids.headD "")
    else
      some ("ID кастомных emoji:\n" ++ str_join "\n" unique_ids)

/-- `safe_get_member_count` from `bot.py`.  The argument is the outcome of
the awaited `bot.get_chat_member_count` call; only `TelegramForbiddenError`
and `TelegramBadRequest` are caught (degrading to `None`), every other
exception propagates. -/
def safe_get_member_count (fetch : Except ExcKind Nat) :
    Except ExcKind (Option Nat) :=
  match fetch with
  | .ok n => .ok (some n)
  | .error .telegramForbidden => .ok none
  | .error .telegramBadRequest => .ok none
  | .error e => .error e

/-- `safe_get_admins` from `bot.py`.  The argument is the outcome of the
awaited `bot.get_chat_administrators` call; only `TelegramForbiddenError`
and `TelegramBadRequest` are caught (degrading to `[]`), every other
exception propagates. -/
def safe_get_admins (fetch : Except ExcKind (List ChatMember)) :
    Except ExcKind (List ChatMember) :=
  match fetch with
  | .ok l => .ok l
  | .error .telegramForbidden => .ok []
  | .error .telegramBadRequest => .ok []
  | .error e => .error e

/-- An aiogram `Chat` base record, with the attributes read by
`build_chat_info` and `format_permissions`. -/
structure Chat where
  id : Int
  type : String
  title : Option String
  username : Option String
  description : Option String
  bio : Option String
  invite_link : Option String
  has_protected_content : Option Bool
  has_hidden_members : Option Bool
  has_private_forwards : Option Bool
  has_aggressive_anti_spam_enabled : Option Bool
  join_to_send_messages : Option Bool
  join_by_request : Option Bool
  is_forum : Option Bool
  linked_chat_id : Option Int
  active_usernames : Option (List String)
  permissions : Option ChatPermissions
deriving Repr

/-- `message.reply_to_message.forum_topic_created`, when present. -/
structure ForumTopicCreated where
  name : Option String
  icon_color : Option Int
  icon_custom_emoji_id : Option String
deriving Repr

/-- `fetch_topic_info` from `bot.py` (pure given the triggering message:
it only reads `message.reply_to_message.forum_topic_created`). -/
def fetch_topic_info (thread_id : Nat)
    (created : Option ForumTopicCreated) : List String :=
  match created with
  | none => ["Топик id " ++ toString thread_id ++ ": не удалось загрузить детали"]
  | some c =>
    let info := [ "Топик: " ++ (if truthyStr c.name then c.name.getD "" else "без имени"),
                  "Thread ID: " ++ toString thread_id ]
    let info := info ++ (match c.icon_color with
      | some col => ["Цвет иконки: " ++ toString col]
      | none => [])
    info ++ (if truthyStr c.icon_custom_emoji_id then
      ["Emoji иконки: " ++ c.icon_custom_emoji_id.getD ""] else [])

/-- The forum-guidance line emitted when `/info` runs in a forum chat but
outside a topic thread. -/
def forum_guidance : String :=
  "Форумный режим включен. Запустите /info внутри конкретного топика, " ++
  "чтобы вывести сведения о нем."

/-- `build_chat_info` from `bot.py`, after the base `bot.get_chat` fetch
succeeded (its failure is fatal before any of this code runs).
`countFetch` and `adminsFetch` are the outcomes of the two awaited
sub-fetches; `thread_id`, `is_topic_message` and `reply_topic_created`
come from the triggering message.  Returns the newline-joined report or
the exception that escaped a sub-fetch. -/
def build_chat_info (chat : Chat)
    (countFetch : Except ExcKind Nat)
    (adminsFetch : Except ExcKind (List ChatMember))
    (thread_id : Option Nat := none)
    (is_topic_message : Bool := false)
    (reply_topic_created : Option ForumTopicCreated := none) :
    Except ExcKind String := do
  let member_count ← safe_get_member_count countFetch
  let admins ← safe_get_admins adminsFetch
  let lines := ["ID: " ++ toString chat.id, "Тип: " ++ chat.type]
  let lines := lines ++
    (if truthyStr chat.title then ["Название: " ++ chat.title.getD ""] else []) ++
    (if truthyStr chat.username then ["Публичное имя: @" ++ chat.username.getD ""] else []) ++
    (if truthyStr chat.description then ["Описание: " ++ chat.description.getD ""] else []) ++
    (if truthyStr chat.bio then ["Био: " ++ chat.bio.getD ""] else []) ++
    (if truthyStr chat.invite_link then ["Инвайт-линк: " ++ chat.invite_link.getD ""] else [])
  let lines := lines ++
    [ "Защита контента: " ++ yes_no chat.has_protected_content,
      "Скрытые участники: " ++ yes_no chat.has_hidden_members,
      "Private forwards: " ++ yes_no chat.has_private_forwards,
      "Aggressive anti-spam: " ++ yes_no chat.has_aggressive_anti_spam_enabled,
      "Join-to-send: " ++ yes_no chat.join_to_send_messages,
      "Join-by-request: " ++ yes_no chat.join_by_request,
      "Форум включен: " ++ yes_no chat.is_forum ]
  let lines := lines ++
    (if truthyInt chat.linked_chat_id then
      ["Связанный чат ID: " ++ toString (chat.linked_chat_id.getD 0)] else []) ++
    (match chat.active_usernames with
      | some us => if us.isEmpty then [] else
          ["Доп. юзернеймы: " ++ str_join ", " (us.map (fun u => "@" ++ u))]
      | none => [])
  let lines := lines ++
    (match member_count with
      | some n => ["Участников: " ++ toString n]
      | none => [])
  let lines := lines ++ [format_permissions chat.permissions, format_admins admins]
  let lines := lines ++
    (if truthyBool chat.is_forum then
      (if is_topic_message && (thread_id.map (fun n => n != 0)).getD false then
        fetch_topic_info (thread_id.getD 0) reply_topic_created
      else [forum_guidance])
    else [])
  pure (str_join "\n" lines)

/-- Decimal digits to their numeric value (`none` when the list is empty
or contains a non-digit). -/
def digitsToNat (cs : List Char) : Option Nat :=
  if cs.isEmpty then none
  else if cs.all Char.isDigit then
    some (cs.foldl (fun n c => n * 10 + (c.toNat - '0'.toNat)) 0)
  else none

/-- Embedding of Python `int(str)` on plain decimal numerals: an optional
sign followed by at least one digit; anything else raises `ValueError`
(modelled as `none`). -/
def str_to_int (s : String) : Option Int :=
  match s.toList with
  | '-' :: rest => (digitsToNat rest).map (fun n => -(n : Int))
  | '+' :: rest => (digitsToNat rest).map (fun n => (n : Int))
  | cs => (digitsToNat cs).map (fun n => (n : Int))

/-- `OWNER_ID` initialisation in `bot.py`: `int(OWNER_ID_RAW) if OWNER_ID_RAW
else None`, with `ValueError` mapped to `None`.  The argument is the raw
environment value (`None` when unset); an empty string is falsy. -/
def parse_owner_id (raw : Option String) : Option Int :=
  match raw with
  | none => none
  | some s =>
    if s.isEmpty then none
    else match str_to_int s with
      | some n => some n
      | none => none

/-- What `notify_owner` did, observationally. -/
inductive NotifyAction
  | noSend
  | sentTo (chat_id : Int) (text : String)
  | sendFailedLogged (chat_id : Int) (text : String) (e : ExcKind)
deriving DecidableEq, Repr

/-- `notify_owner` from `bot.py`.  `owner` is the configured `OWNER_ID`
(`if not OWNER_ID: return` — Python truthiness, so `None` and `0` both
skip), `sendResult` the outcome of the awaited `bot.send_message`; the
surrounding `except Exception` catches every `Exception` subclass but not
`KeyboardInterrupt`-like failures. -/
def notify_owner (owner : Option Int) (text : String)
    (sendResult : Except ExcKind Unit) : Except ExcKind NotifyAction :=
  if truthyInt owner then
    match sendResult with
    | .ok _ => .ok (.sentTo (owner.getD 0) text)
    | .error e =>
      if e.isException then .ok (.sendFailedLogged (owner.getD 0) text e)
      else .error e
  else .ok .noSend

/-- The structured-serialization capability of `event.update` inside
`handle_error`: the update has a `model_dump` method (whose call may
raise), or only a `dict` method (likewise), or neither, in which case
`str(event.update)` is used. -/
inductive SerializeMethod
  | modelDump (result : Except ExcKind String)
  | dictMethod (result : Except ExcKind String)
  | plainStr (s : String)
deriving Repr

/-- The `update_dump` string computed by `handle_error`: empty when there
is no update; `"Update: " ++ raw` from the applicable serialization;
the `except Exception` around the whole block leaves `update_dump` empty
(`""`) when serialization raises an `Exception`. -/
def update_dump (update : Option SerializeMethod) : Except ExcKind String :=
  match update with
  | none => .ok ""
  | some (.modelDump (.ok raw)) => .ok ("Update: " ++ raw)
  | some (.modelDump (.error e)) =>
    if e.isException then .ok "" else .error e
  | some (.dictMethod (.ok raw)) => .ok ("Update: " ++ raw)
  | some (.dictMethod (.error e)) =>
    if e.isException then .ok "" else .error e
  | some (.plainStr s) => .ok ("Update: " ++ s)

/-- The `preview` truncation in `handle_error`:
`preview[:1500] + "…"` when `len(preview) > 1500`. -/
def truncate_preview (s : String) : String :=
  if s.length > 1500 then str_take s 1500 ++ "…" else s

/-- The report text assembled by `handle_error`:
`"\n".join(part for part in [...] if part)` drops empty parts. -/
def error_report_text (timestamp excName excMsg preview : String) : String :=
  str_join "\n"
    (([ "⚠️ Ошибка " ++ timestamp,
        excName ++ ": " ++ excMsg,
        preview ]).filter (fun p => !p.isEmpty))

/-- `handle_error` from `bot.py`: serialize the update (exceptions during
structured serialization are caught), truncate, assemble the report,
notify the owner (delivery failures are caught), and return `True`. -/
def handle_error (timestamp excName excMsg : String)
    (update : Option SerializeMethod) (owner : Option Int)
    (sendResult : Except ExcKind Unit) :
    Except ExcKind (Bool × String × NotifyAction) :=
  match update_dump update with
  | .error e => .error e
  | .ok dump =>
    let report := error_report_text timestamp excName excMsg
      (truncate_preview dump)
    match notify_owner owner report sendResult with
    | .error e => .error e
    | .ok action => .ok (true, report, action)

/-- Outcome of one `dp.start_polling` invocation inside `main`'s loop:
normal return, or an escaped exception of some kind. -/
abbrev RunResult := Except ExcKind Unit

/-- Observable events of the supervisor loop in `main`. -/
inductive SupEvent
  | startStream
  | errorReport
  | backoffWait (units : Nat)
  | stopped
deriving DecidableEq, Repr

/-- The `while True` supervisor loop of `main`, as a trace over the
successive outcomes of `dp.start_polling`: a `KeyboardInterrupt` breaks
the loop (STOPPED); any other exception dispatches one owner notification,
sleeps 5 seconds and restarts; a normal return restarts immediately.
An exhausted outcome list means the current stream run is still alive. -/
def supervisor_trace : List RunResult → List SupEvent
  | [] => []
  | r :: rest =>
    SupEvent.startStream ::
    match r with
    | .ok _ => supervisor_trace rest
    | .error .keyboardInterrupt => [SupEvent.stopped]
    | .error _ =>
      SupEvent.errorReport :: SupEvent.backoffWait 5 :: supervisor_trace rest

/-- A minimal chat base record (a supergroup with every optional attribute
absent), used to exercise report assembly on concrete inputs. -/
def sampleChat : Chat :=
  ⟨1, "supergroup", none, none, none, none, none, none, none, none, none,
   none, none, none, none, none, none⟩

/-- A permissions record granting exactly `can_send_messages` and
`can_pin_messages`. -/
def sendPinOnly : ChatPermissions :=
  ⟨some true, none, none, none, none, none, none, none, none, none, none,
   none, some true, none⟩

/-- A private message whose annotations reference custom-emoji ids
`[A, B, A]`. -/
def abaMsg : MsgContent :=
  ⟨some [⟨"custom_emoji", some "A"⟩, ⟨"custom_emoji", some "B"⟩,
         ⟨"custom_emoji", some "A"⟩], none⟩

/-- The fixed permission labels of `format_permissions`, in enumeration
order. -/
def all_perm_labels : List String :=
  [ "сообщения", "аудио", "документы", "фото", "видео", "видео-заметки",
    "голосовые", "опросы", "другое", "превью ссылок", "изменять инфо",
    "приглашать", "пинить", "управлять топиками" ]

/-- The update's structured serialization, when it fails, fails with an
`Exception` subclass (the realistic failure mode of pydantic
serialization; `KeyboardInterrupt`-like asynchronous failures are not
serialization failures). -/
def serialize_benign : Option SerializeMethod → Prop
  | some (.modelDump (.error e)) => e.isException = true
  | some (.dictMethod (.error e)) => e.isException = true
  | _ => True

theorem dedup_go_mem (l : List String) (seen : List String) (x : String) :
    x ∈ dedup_go seen l ↔ x ∈ l ∧ x ∉ seen := by
  induction l generalizing seen with
  | nil => simp [dedup_go]
  | cons a t ih =>
    by_cases h : a ∈ seen
    · rw [dedup_go, if_pos h, ih]
      simp only [List.mem_cons]
      constructor
      · exact fun hx => ⟨Or.inr hx.1, hx.2⟩
      · rintro ⟨rfl | hx, hs⟩
        · exact absurd h hs
        · exact ⟨hx, hs⟩
    · rw [dedup_go, if_neg h]
      simp only [List.mem_cons, ih, List.mem_cons]
      constructor
      · rintro (rfl | ⟨hx, hs⟩)
        · exact ⟨Or.inl rfl, h⟩
        · exact ⟨Or.inr hx, fun hc => hs (Or.inr hc)⟩
      · rintro ⟨rfl | hx, hs⟩
        · exact Or.inl rfl
        · by_cases hxa : x = a
          · exact Or.inl hxa
          · exact Or.inr ⟨hx, fun hc => hc.elim hxa hs⟩

theorem dedup_go_sublist (l : List String) (seen : List String) :
    (dedup_go seen l).Sublist l := by
  induction l generalizing seen with
  | nil => simp [dedup_go]
  | cons a t ih =>
    rw [dedup_go]
    by_cases h : a ∈ seen
    · rw [if_pos h]; exact (ih seen).cons a
    · rw [if_neg h]; exact (ih (a :: seen)).cons₂ a

theorem dedup_go_nodup (l : List String) (seen : List String) :
    (dedup_go seen l).Nodup := by
  induction l generalizing seen with
  | nil => simp [dedup_go]
  | cons a t ih =>
    rw [dedup_go]
    by_cases h : a ∈ seen
    · rw [if_pos h]; exact ih seen
    · rw [if_neg h]
      refine List.nodup_cons.mpr ⟨fun hmem => ?_, ih (a :: seen)⟩
      exact ((dedup_go_mem t (a :: seen) a).mp hmem).2 (List.mem_cons_self a seen)

theorem str_append_left_cancel (a x y : String) (h : a ++ x = a ++ y) :
    x = y := by
  have hd := congrArg String.data h
  rw [String.data_append, String.data_append] at hd
  exact String.ext (List.append_cancel_left hd)

theorem granted_labels_eq_nil_iff (p : ChatPermissions) :
    granted_labels p = [] ↔ ∀ x ∈ perm_mapping p, truthyBool x.1 = false := by
  rw [granted_labels, List.filterMap_eq_nil_iff]
  refine forall₂_congr fun x _ => ?_
  by_cases h : truthyBool x.1 <;> simp [h]

theorem mem_granted_labels (p : ChatPermissions) (x : String)
    (hx : x ∈ granted_labels p) : x ∈ all_perm_labels := by
  rw [granted_labels, List.mem_filterMap] at hx
  obtain ⟨a, ha, hfa⟩ := hx
  have hx2 : a.2 = x := by
    by_cases h : truthyBool a.1 <;> simp [h] at hfa
    exact hfa
  subst hx2
  fin_cases ha <;> simp [all_perm_labels]

theorem join_granted_ne (ls : List String) (h : ls ≠ [])
    (hm : ∀ l ∈ ls, l ∈ all_perm_labels) (t : String)
    (ht : t ∉ all_perm_labels) (hc : ',' ∉ t.data) :
    str_join ", " ls ≠ t := by
  match ls, h with
  | [a], _ =>
    intro he
    exact ht (he ▸ hm a (List.mem_singleton_self a))
  | a :: b :: rest, _ =>
    intro he
    apply hc
    rw [← he]
    show ',' ∈ (a ++ ", " ++ str_join ", " (b :: rest)).data
    rw [String.data_append, String.data_append]
    exact List.mem_append_left _ (List.mem_append_right _ (by decide))

theorem notify_owner_ok (owner : Option Int) (t : String)
    (send : Except ExcKind Unit)
    (hsend : ∀ e, send = Except.error e → e.isException = true) :
    ∃ a, notify_owner owner t send = Except.ok a := by
  unfold notify_owner
  by_cases ho : truthyInt owner
  · rw [if_pos ho]
    match send with
    | .ok _ => exact ⟨_, rfl⟩
    | .error e =>
      simp only [hsend e rfl, if_true]
      exact ⟨_, rfl⟩
  · rw [if_neg ho]; exact ⟨_, rfl⟩

theorem update_dump_ok (upd : Option SerializeMethod)
    (hupd : serialize_benign upd) :
    ∃ d, update_dump upd = Except.ok d := by
  match upd with
  | none => exact ⟨_, rfl⟩
  | some (.modelDump (.ok raw)) => exact ⟨_, rfl⟩
  | some (.modelDump (.error e)) =>
    have hb : e.isException = true := hupd
    rw [update_dump, if_pos hb]; exact ⟨_, rfl⟩
  | some (.dictMethod (.ok raw)) => exact ⟨_, rfl⟩
  | some (.dictMethod (.error e)) =>
    have hb : e.isException = true := hupd
    rw [update_dump, if_pos hb]; exact ⟨_, rfl⟩
  | some (.plainStr s) => exact ⟨_, rfl⟩

/-- Claim C1 (counterexample): an exception that is neither forbidden-access
nor bad-request escapes `safe_get_member_count` and `safe_get_admins`
and aborts the whole chat report, contradicting the claim that no
exception of any kind from these sub-fetches ever propagates. -/
theorem C1_subfetch_propagates_counterexample :
    safe_get_member_count (Except.error ExcKind.otherException) =
      Except.error ExcKind.otherException ∧
    safe_get_admins (Except.error ExcKind.otherException) =
      Except.error ExcKind.otherException ∧
    build_chat_info sampleChat (Except.error ExcKind.otherException)
      (Except.ok []) = Except.error ExcKind.otherException ∧
    build_chat_info sampleChat (Except.ok 5)
      (Except.error ExcKind.otherException) =
      Except.error ExcKind.otherException :=
  ⟨rfl, rfl, rfl, rfl⟩

/-- Claim C1 (amended): only forbidden-access and bad-request failures of
the member-count and admin-list sub-fetches degrade (to `None` / empty);
any other exception propagates out of the sub-fetch and aborts the whole
report, while successful fetches pass through. -/
theorem C1_subfetch_degradation (e : ExcKind) (n : Nat) (l : List ChatMember) :
    (e = ExcKind.telegramForbidden ∨ e = ExcKind.telegramBadRequest →
      safe_get_member_count (Except.error e) = Except.ok none ∧
      safe_get_admins (Except.error e) = Except.ok []) ∧
    (e ≠ ExcKind.telegramForbidden ∧ e ≠ ExcKind.telegramBadRequest →
      safe_get_member_count (Except.error e) = Except.error e ∧
      safe_get_admins (Except.error e) = Except.error e) ∧
    safe_get_member_count (Except.ok n) = Except.ok (some n) ∧
    safe_get_admins (Except.ok l) = Except.ok l := by
  cases e <;> simp [safe_get_member_count, safe_get_admins]

/-- Witness for C1: forbidden-access degrades, any other exception
propagates, at concrete inputs. -/
theorem C1_subfetch_degradation_witness :
    safe_get_member_count (Except.error ExcKind.telegramForbidden) =
      Except.ok none ∧
    safe_get_admins (Except.error ExcKind.otherException) =
      Except.error ExcKind.otherException :=
  ⟨((C1_subfetch_degradation ExcKind.telegramForbidden 0 []).1 (Or.inl rfl)).1,
   ((C1_subfetch_degradation ExcKind.otherException 0 []).2.1
      ⟨by decide, by decide⟩).2⟩

/-- Claim C2 (counterexample): a successful admin-list fetch returning zero
admins and a failed (forbidden) fetch yield the same degraded list `[]`,
hence the very same admin line — in fact byte-identical whole reports —
contradicting the claim that the two admin lines differ. -/
theorem C2_empty_equals_unavailable_counterexample :
    safe_get_admins (Except.ok ([] : List ChatMember)) = Except.ok [] ∧
    safe_get_admins (Except.error ExcKind.telegramForbidden) = Except.ok [] ∧
    format_admins [] = "Администраторы: недоступно" ∧
    build_chat_info sampleChat (Except.ok 5) (Except.ok []) =
      build_chat_info sampleChat (Except.ok 5)
        (Except.error ExcKind.telegramForbidden) :=
  ⟨rfl, rfl, rfl, rfl⟩

/-- Claim C2 (amended): an empty admin list is not distinguishable from a
failed fetch: a forbidden/bad-request failure degrades to the same empty
list a zero-admin success produces, and the empty list renders as the
"unavailable" admin line. -/
theorem C2_empty_renders_unavailable (e : ExcKind)
    (he : e = ExcKind.telegramForbidden ∨ e = ExcKind.telegramBadRequest) :
    safe_get_admins (Except.error e) =
      safe_get_admins (Except.ok ([] : List ChatMember)) ∧
    format_admins [] = "Администраторы: недоступно" := by
  rcases he with rfl | rfl <;> exact ⟨rfl, rfl⟩

/-- Witness for C2 (amended) at the forbidden-access failure. -/
theorem C2_empty_renders_unavailable_witness :
    safe_get_admins (Except.error ExcKind.telegramForbidden) =
      safe_get_admins (Except.ok ([] : List ChatMember)) ∧
    format_admins [] = "Администраторы: недоступно" :=
  C2_empty_renders_unavailable ExcKind.telegramForbidden (Or.inl rfl)

/-- Claim C3: a failure of the stream-driving call that is not an operator
interrupt produces exactly one error notification, one fixed 5-unit
backoff, and a restart, for every such failure and whatever follows;
an operator interrupt stops the loop immediately with no events (in
particular no restarts) after the `STOPPED` transition. -/
theorem C3_supervisor_restart (e : ExcKind) (rest : List RunResult)
    (h : e ≠ ExcKind.keyboardInterrupt) :
    supervisor_trace (Except.error e :: rest) =
      SupEvent.startStream :: SupEvent.errorReport :: SupEvent.backoffWait 5 ::
        supervisor_trace rest ∧
    supervisor_trace (Except.error ExcKind.keyboardInterrupt :: rest) =
      [SupEvent.startStream, SupEvent.stopped] := by
  refine ⟨?_, rfl⟩
  cases e with
  | keyboardInterrupt => exact absurd rfl h
  | telegramForbidden => rfl
  | telegramBadRequest => rfl
  | otherException => rfl

/-- Witness for C3: one stream failure then an interrupt. -/
theorem C3_supervisor_restart_witness :
    supervisor_trace
        [Except.error ExcKind.otherException,
         Except.error ExcKind.keyboardInterrupt] =
      [SupEvent.startStream, SupEvent.errorReport, SupEvent.backoffWait 5,
       SupEvent.startStream, SupEvent.stopped] := by
  have h := C3_supervisor_restart ExcKind.otherException
    [Except.error ExcKind.keyboardInterrupt] (by decide)
  rw [h.1]
  rfl

/-- Claim C4 (counterexample): when structured serialization of the update
raises, `handle_error` produces exactly the report it would produce with
no update at all — the event context is omitted entirely, no plain
textual representation is included. -/
theorem C4_serialization_omits_counterexample :
    update_dump (some (SerializeMethod.modelDump
        (Except.error ExcKind.otherException))) = Except.ok "" ∧
    handle_error "t" "E" "m"
        (some (SerializeMethod.modelDump (Except.error ExcKind.otherException)))
        (some 7) (Except.ok ()) =
      handle_error "t" "E" "m" none (some 7) (Except.ok ()) ∧
    handle_error "t" "E" "m"
        (some (SerializeMethod.modelDump (Except.error ExcKind.otherException)))
        (some 7) (Except.ok ()) =
      Except.ok (true, "⚠️ Ошибка t\nE: m",
        NotifyAction.sentTo 7 "⚠️ Ошибка t\nE: m") :=
  ⟨rfl, rfl, rfl⟩

/-- Claim C4 (amended): when structured serialization raises, the dump
degrades to the empty string and is filtered out of the report (the event
context is omitted); the plain textual representation is used only when
the update object has neither `model_dump` nor `dict`. -/
theorem C4_serialization_degradation (e : ExcKind) (s : String)
    (timestamp n m : String) (owner : Option Int)
    (send : Except ExcKind Unit) (h : e.isException = true) :
    update_dump (some (SerializeMethod.modelDump (Except.error e))) =
      Except.ok "" ∧
    update_dump (some (SerializeMethod.dictMethod (Except.error e))) =
      Except.ok "" ∧
    update_dump (some (SerializeMethod.plainStr s)) =
      Except.ok ("Update: " ++ s) ∧
    handle_error timestamp n m
        (some (SerializeMethod.modelDump (Except.error e))) owner send =
      handle_error timestamp n m none owner send := by
  have h1 : update_dump (some (SerializeMethod.modelDump (Except.error e))) =
      Except.ok "" := by
    simp only [update_dump, h, if_true]
  have h2 : update_dump (some (SerializeMethod.dictMethod (Except.error e))) =
      Except.ok "" := by
    simp only [update_dump, h, if_true]
  refine ⟨h1, h2, rfl, ?_⟩
  simp only [handle_error, h1]
  rfl

/-- Witness for C4 (amended) at a concrete exception and inputs. -/
theorem C4_serialization_degradation_witness :
    update_dump (some (SerializeMethod.modelDump
        (Except.error ExcKind.otherException))) = Except.ok "" ∧
    update_dump (some (SerializeMethod.plainStr "u")) =
      Except.ok ("Update: " ++ "u") :=
  ⟨(C4_serialization_degradation ExcKind.otherException "u" "t" "E" "m"
      (some 7) (Except.ok ()) (by decide)).1,
   (C4_serialization_degradation ExcKind.otherException "u" "t" "E" "m"
      (some 7) (Except.ok ()) (by decide)).2.2.1⟩

/-- Claim C5: for every delivery outcome whose failure (if any) is an
`Exception`, and every update whose serialization failure (if any) is an
`Exception`, both `notify_owner` and `handle_error` return normally —
the reporter never itself raises. -/
theorem C5_reporter_never_raises (owner : Option Int) (text : String)
    (timestamp n m : String) (upd : Option SerializeMethod)
    (send : Except ExcKind Unit)
    (hsend : ∀ e, send = Except.error e → e.isException = true)
    (hupd : serialize_benign upd) :
    (∃ a, notify_owner owner text send = Except.ok a) ∧
    (∃ r, handle_error timestamp n m upd owner send = Except.ok r) := by
  refine ⟨notify_owner_ok owner text send hsend, ?_⟩
  obtain ⟨d, hd⟩ := update_dump_ok upd hupd
  obtain ⟨a, ha⟩ := notify_owner_ok owner
    (error_report_text timestamp n m (truncate_preview d)) send hsend
  exact ⟨(true, error_report_text timestamp n m (truncate_preview d), a),
    by simp only [handle_error, hd, ha]⟩

/-- Witness for C5: a failing delivery at concrete inputs still returns
normally. -/
theorem C5_reporter_never_raises_witness :
    (∃ a, notify_owner (some 7) "x"
        (Except.error ExcKind.otherException) = Except.ok a) ∧
    (∃ r, handle_error "t" "E" "m" none (some 7)
        (Except.error ExcKind.otherException) = Except.ok r) :=
  C5_reporter_never_raises (some 7) "x" "t" "E" "m" none
    (Except.error ExcKind.otherException)
    (fun e h => by cases h; rfl) trivial

/-- Claim C6: for every user, each flag in the fixed enumeration yields a
flag line at its fixed position in the formatted report, rendered via
`yes_no`, which always returns exactly one of the three fixed tokens and
never an empty string — even when the underlying attribute is absent. -/
theorem C6_tri_state_flags (u : User) :
    (∀ v : Option Bool,
      (yes_no v = "да" ∨ yes_no v = "нет" ∨ yes_no v = "неизвестно") ∧
      yes_no v ≠ "") ∧
    (format_user_lines u)[1]? = some ("Bot: " ++ yes_no (some u.is_bot)) ∧
    (format_user_lines u)[5]? = some ("Premium: " ++ yes_no u.is_premium) ∧
    (format_user_lines u)[6]? = some ("Scam: " ++ yes_no u.is_scam) ∧
    (format_user_lines u)[7]? = some ("Fake: " ++ yes_no u.is_fake) ∧
    (format_user_lines u)[8]? = some ("Support: " ++ yes_no u.is_support) ∧
    (format_user_lines u)[9]? =
      some ("Добавлен в меню вложений: " ++ yes_no u.added_to_attachment_menu) ∧
    (format_user_lines u)[10]? =
      some ("Может присоединяться к группам: " ++ yes_no u.can_join_groups) ∧
    (format_user_lines u)[11]? =
      some ("Может читать все сообщения групп: " ++
        yes_no u.can_read_all_group_messages) ∧
    (format_user_lines u)[12]? =
      some ("Поддерживает inline: " ++ yes_no u.supports_inline_queries) ∧
    (format_user_lines u)[13]? =
      some ("Can connect to business: " ++ yes_no u.can_connect_to_business) ∧
    (format_user_lines u)[14]? =
      some ("Has main web app: " ++ yes_no u.has_main_web_app) := by
  refine ⟨fun v => ?_, ?_, ?_, ?_, ?_, ?_, ?_, ?_, ?_, ?_, ?_, ?_⟩
  · rcases v with _ | b
    · exact ⟨Or.inr (Or.inr rfl), by decide⟩
    · cases b
      · exact ⟨Or.inr (Or.inl rfl), by decide⟩
      · exact ⟨Or.inl rfl, by decide⟩
  all_goals simp [format_user_lines]

/-- Claim C7: the permissions line is the dedicated "unavailable" line when
the record is absent; it is the "all denied" line exactly when every
tracked permission is false or absent; otherwise it is the comma-joined
granted labels in the fixed enumeration order (exactly "сообщения,
пинить" for a record granting only `can_send_messages` and
`can_pin_messages`), and the three cases are pairwise distinct. -/
theorem C7_permissions_line (p : ChatPermissions) :
    format_permissions none = "Разрешения по умолчанию: недоступно" ∧
    (format_permissions (some p) = "Разрешения по умолчанию: запрещено все" ↔
      ∀ x ∈ perm_mapping p, truthyBool x.1 = false) ∧
    (granted_labels p ≠ [] →
      format_permissions (some p) =
        "Разрешения по умолчанию: " ++ str_join ", " (granted_labels p)) ∧
    format_permissions (some sendPinOnly) =
      "Разрешения по умолчанию: сообщения, пинить" ∧
    (granted_labels p ≠ [] →
      format_permissions (some p) ≠ "Разрешения по умолчанию: запрещено все" ∧
      format_permissions (some p) ≠ "Разрешения по умолчанию: недоступно") ∧
    ("Разрешения по умолчанию: запрещено все" : String) ≠
      "Разрешения по умолчанию: недоступно" := by
  have hjoin : granted_labels p ≠ [] →
      format_permissions (some p) =
        "Разрешения по умолчанию: " ++ str_join ", " (granted_labels p) := by
    intro hne
    rw [format_permissions, if_neg (by simpa using hne)]
  have hne2 : granted_labels p ≠ [] →
      str_join ", " (granted_labels p) ≠ "запрещено все" ∧
      str_join ", " (granted_labels p) ≠ "недоступно" := by
    intro hne
    exact ⟨join_granted_ne (granted_labels p) hne (mem_granted_labels p)
        "запрещено все" (by decide) (by decide),
      join_granted_ne (granted_labels p) hne (mem_granted_labels p)
        "недоступно" (by decide) (by decide)⟩
  refine ⟨rfl, ?_, hjoin, by decide, fun hne => ?_, by decide⟩
  · rw [← granted_labels_eq_nil_iff]
    constructor
    · intro hfmt
      by_contra hne
      have := hjoin hne
      rw [this] at hfmt
      have : str_join ", " (granted_labels p) = "запрещено все" :=
        str_append_left_cancel "Разрешения по умолчанию: " _ _
          (by rw [hfmt]; rfl)
      exact (hne2 hne).1 this
    · intro hnil
      rw [format_permissions, if_pos (by simpa using hnil)]
  · constructor
    · intro hfmt
      rw [hjoin hne] at hfmt
      exact (hne2 hne).1 (str_append_left_cancel "Разрешения по умолчанию: "
        _ _ (by rw [hfmt]; rfl))
    · intro hfmt
      rw [hjoin hne] at hfmt
      exact (hne2 hne).2 (str_append_left_cancel "Разрешения по умолчанию: "
        _ _ (by rw [hfmt]; rfl))

/-- Witness for C7: at the record granting exactly send-messages and
pin-messages, the joined form holds and differs from the other lines. -/
theorem C7_permissions_line_witness :
    format_permissions (some sendPinOnly) =
      "Разрешения по умолчанию: " ++ str_join ", " (granted_labels sendPinOnly) ∧
    format_permissions (some sendPinOnly) ≠
      "Разрешения по умолчанию: запрещено все" ∧
    format_permissions (some sendPinOnly) ≠
      "Разрешения по умолчанию: недоступно" := by
  have h := C7_permissions_line sendPinOnly
  exact ⟨h.2.2.1 (by decide), h.2.2.2.2.1 (by decide)⟩

/-- Claim C8: the serialized event body is capped at 1500 characters: an
untruncated body is passed through unchanged (no marker), and a longer
body is cut to exactly 1500 characters with the one-character ellipsis
marker appended, for a total of 1501. -/
theorem C8_preview_truncation (s : String) :
    (s.length ≤ 1500 → truncate_preview s = s) ∧
    (1500 < s.length →
      truncate_preview s = str_take s 1500 ++ "…" ∧
      (str_take s 1500).length = 1500 ∧
      (truncate_preview s).length = 1501) := by
  constructor
  · intro h
    rw [truncate_preview, if_neg (by omega)]
  · intro h
    have heq : truncate_preview s = str_take s 1500 ++ "…" := by
      rw [truncate_preview, if_pos (by omega)]
    have hlen : (str_take s 1500).length = 1500 := by
      rw [str_take, String.length_mk, List.length_take]
      have : s.toList.length = s.length := rfl
      omega
    refine ⟨heq, hlen, ?_⟩
    rw [heq, String.length_append, hlen]
    decide

/-- Witness for C8: a 1501-character body is truncated to 1500 plus the
marker; a short body passes through unchanged. -/
theorem C8_preview_truncation_witness :
    truncate_preview (String.mk (List.replicate 1501 'a')) =
      str_take (String.mk (List.replicate 1501 'a')) 1500 ++ "…" ∧
    (truncate_preview (String.mk (List.replicate 1501 'a'))).length = 1501 ∧
    truncate_preview "short" = "short" := by
  have hlen : (String.mk (List.replicate 1501 'a')).length = 1501 := by
    rw [String.length_mk, List.length_replicate]
  have h := C8_preview_truncation (String.mk (List.replicate 1501 'a'))
  have h2 := h.2 (by omega)
  exact ⟨h2.1, h2.2.2, (C8_preview_truncation "short").1 (by decide)⟩

/-- Claim C9: for every message, the reported custom-emoji id sequence is
the extracted sequence with duplicates removed and first-seen order
preserved (it is a duplicate-free sublist of the extraction with the same
elements), and a message whose annotations reference `[A, B, A]` yields
exactly `[A, B]`. -/
theorem C9_custom_emoji_ids (m : MsgContent) :
    reported_ids m = dedup_first_seen (extract_custom_emoji_ids m) ∧
    (reported_ids m).Sublist (extract_custom_emoji_ids m) ∧
    (reported_ids m).Nodup ∧
    (∀ x, x ∈ reported_ids m ↔ x ∈ extract_custom_emoji_ids m) ∧
    reported_ids abaMsg = ["A", "B"] ∧
    custom_emoji_reply abaMsg = some ("ID кастомных emoji:\n" ++
      str_join "\n" (reported_ids abaMsg)) := by
  refine ⟨rfl, dedup_go_sublist _ _, dedup_go_nodup _ _, fun x => ?_, by decide,
    by decide⟩
  rw [reported_ids, dedup_first_seen, dedup_go_mem]
  simp

/-- Claim C10: whenever the configured operator identity is falsy — absent,
or parsed to the numeric value `0` — `notify_owner` sends nothing and
returns normally, for every notification text and delivery outcome; the
value parsed from the raw string `"0"` is `0` and is indistinguishable
from an unset identity. -/
theorem C10_owner_zero_disables (text : String) (send : Except ExcKind Unit)
    (owner : Option Int) (h : owner = none ∨ owner = some 0) :
    notify_owner owner text send = Except.ok NotifyAction.noSend ∧
    parse_owner_id (some "0") = some 0 ∧
    notify_owner (parse_owner_id (some "0")) text send =
      Except.ok NotifyAction.noSend ∧
    notify_owner (some 0) text send = notify_owner none text send := by
  have h0 : ∀ o : Option Int, truthyInt o = false →
      notify_owner o text send = Except.ok NotifyAction.noSend := by
    intro o ho
    unfold notify_owner
    simp [ho]
  have hp : parse_owner_id (some "0") = some 0 := rfl
  rcases h with rfl | rfl
  · exact ⟨h0 none rfl, hp, by rw [hp]; exact h0 (some 0) rfl,
      by rw [h0 (some 0) rfl, h0 none rfl]⟩
  · exact ⟨h0 (some 0) rfl, hp, by rw [hp]; exact h0 (some 0) rfl,
      by rw [h0 (some 0) rfl, h0 none rfl]⟩

/-- Witness for C10 at the parsed-zero identity. -/
theorem C10_owner_zero_disables_witness :
    notify_owner (some 0) "x" (Except.ok ()) =
      Except.ok NotifyAction.noSend ∧
    parse_owner_id (some "0") = some 0 :=
  ⟨(C10_owner_zero_disables "x" (Except.ok ()) (some 0) (Or.inr rfl)).1,
   (C10_owner_zero_disables "x" (Except.ok ()) (some 0) (Or.inr rfl)).2.1⟩

end EchoBot
